import Mathlib

set_option maxRecDepth 4000

/-!
Verification of the Yogi voice-assistant tool layer (`tools.py`).

The Python tools are shallowly embedded as pure Lean functions.  File-backed
state (the `todo.json` / `notes.json` stores) is modelled by an explicit
`StoreFile` value threaded through each operation; external OS facilities
(`os.walk`, `os.environ`, `os.getlogin`) are parameters of the embedding.
All definitions are translated from the source of `tools.py`; line numbers
in doc comments refer to that file.
-/

namespace Yogi

/-! ### Python string helpers

`str.rstrip` / `str.lstrip` / `str.strip` / `str.lower` and the substring
operator `in`, as used by `tools.py`.  Whitespace is Python's ASCII
whitespace class; lowering is modelled on the ASCII range, which covers all
phrases in the resolver's table. -/

/-- Python's whitespace class for `str.strip` (ASCII part). -/
def pyIsSpace (c : Char) : Bool :=
  c = ' ' || c = '\t' || c = '\n' || c = '\r' || c = '\x0b' || c = '\x0c'

/-- Python `s.rstrip()`: drop trailing whitespace. -/
def pyRstrip (s : String) : String :=
  ⟨(s.data.reverse.dropWhile pyIsSpace).reverse⟩

/-- Python `s.lstrip()`: drop leading whitespace. -/
def pyLstrip (s : String) : String :=
  ⟨s.data.dropWhile pyIsSpace⟩

/-- Python `s.strip()`: drop whitespace on both ends. -/
def pyStrip (s : String) : String :=
  pyRstrip (pyLstrip s)

/-- Python `s.lower()` (ASCII range). -/
def strLower (s : String) : String :=
  ⟨s.data.map Char.toLower⟩

/-- Is `needle` a prefix of `haystack` (as char lists)? -/
def listIsPref : List Char → List Char → Bool
  | [], _ => true
  | _ :: _, [] => false
  | a :: as, b :: bs => a == b && listIsPref as bs

/-- Does `needle` occur contiguously inside `haystack` (as char lists)? -/
def listOccurs (needle : List Char) : List Char → Bool
  | [] => needle.isEmpty
  | b :: bs => listIsPref needle (b :: bs) || listOccurs needle bs

/-- Python's substring test `needle in haystack`. -/
def occursIn (needle haystack : String) : Bool :=
  listOccurs needle.data haystack.data

/-! ### JSON-array store files

`todo.json` and `notes.json` are each a JSON array of strings.  A store file
is either absent, a well-formed array of strings, corrupt (present but
`json.load` raises `JSONDecodeError`), or unreadable (opening/reading raises
some other exception, e.g. a permission error).  `save_tasks`/`save_notes`
write the serialized list; the model takes the successful-write path, which
is the behaviour the spec describes. -/

inductive StoreFile where
  | missing
  | valid (items : List String)
  | corrupt
  | unreadable
  deriving DecidableEq, Repr

/-- `save_tasks(tasks)` (tools.py lines 65-72): serialize `tasks` over the file. -/
def save_tasks (tasks : List String) (_f : StoreFile) : StoreFile :=
  .valid tasks

/-- `load_tasks()` (tools.py lines 47-63): missing file yields `[]`;
a decode error resets the file via `save_tasks([])` and yields `[]`;
any other read failure yields `[]` without touching the file. -/
def load_tasks (f : StoreFile) : List String × StoreFile :=
  match f with
  | .missing => ([], .missing)
  | .valid tasks => (tasks, .valid tasks)
  | .corrupt => ([], save_tasks [] .corrupt)
  | .unreadable => ([], .unreadable)

/-- `add_task(task)` (tools.py lines 140-146). -/
def add_task (task : String) (f : StoreFile) : String × StoreFile :=
  let p := load_tasks f
  ("Task added: " ++ task, save_tasks (p.1 ++ [task]) p.2)

/-- 1-indexed rendering `f"\x7bi+1\x7d. \x7bt\x7d"` used by `list_tasks` and `show_notes`. -/
def renderItem (p : Nat × String) : String :=
  toString (p.1 + 1) ++ ". " ++ p.2

/-- `list_tasks()` (tools.py lines 148-154). -/
def list_tasks (f : StoreFile) : String × StoreFile :=
  let p := load_tasks f
  if p.1.isEmpty then ("No tasks in the list.", p.2)
  else (String.intercalate "\n" (p.1.enum.map renderItem), p.2)

/-- `clear_tasks()` (tools.py lines 156-160). -/
def clear_tasks (f : StoreFile) : String × StoreFile :=
  ("All tasks cleared.", save_tasks [] f)

/-- Run a sequence of `add_task` calls, threading the store file. -/
def addTasksSeq (ts : List String) (f : StoreFile) : StoreFile :=
  ts.foldl (fun f t => (add_task t f).2) f

/-- `save_notes(notes)` (tools.py lines 276-282). -/
def save_notes (notes : List String) (_f : StoreFile) : StoreFile :=
  .valid notes

/-- `load_notes()` (tools.py lines 258-274): same structure as `load_tasks`. -/
def load_notes (f : StoreFile) : List String × StoreFile :=
  match f with
  | .missing => ([], .missing)
  | .valid notes => (notes, .valid notes)
  | .corrupt => ([], save_notes [] .corrupt)
  | .unreadable => ([], .unreadable)

/-- `write_note(note)` (tools.py lines 284-297): if any note exists, replace
the last one by `last.rstrip() + "\n" + note.lstrip()`; else append `note`. -/
def write_note (note : String) (f : StoreFile) : String × StoreFile :=
  let p := load_notes f
  match p.1.getLast? with
  | some last =>
      ("Note updated.",
        save_notes (p.1.dropLast ++ [pyRstrip last ++ "\n" ++ pyLstrip note]) p.2)
  | none =>
      ("Note added.", save_notes (p.1 ++ [note]) p.2)

/-! ### Password generation -/

/-- Python `string.ascii_letters`. -/
def ascii_letters : String :=
  "abcdefghijklmnopqrstuvwxyzABCDEFGHIJKLMNOPQRSTUVWXYZ"

/-- Python `string.digits`. -/
def asciiDigits : String :=
  "0123456789"

/-- Python `string.punctuation`. -/
def asciiPunctuation : String :=
  "!\"#$%&\x27()*+,-./:;<=>?@[\\]^_\x60\x7b|\x7d~"

/-- The alphabet `string.ascii_letters + string.digits + string.punctuation`
used by `generate_password` (tools.py line 310). -/
def pwChars : String :=
  ascii_letters ++ asciiDigits ++ asciiPunctuation

/-- `generate_password(length)` (tools.py lines 305-313).  `secrets.choice`
picks an element of the alphabet; the source of randomness is modelled by
an arbitrary index stream `idx`, reduced modulo the alphabet size. -/
def generate_password (length : Int) (idx : Nat → Nat) : String :=
  if length < 6 then "Password must be at least 6 characters long."
  else ⟨(List.range length.toNat).map
          fun i => pwChars.data.getD (idx i % pwChars.data.length) 'a'⟩

/-! ### Natural-language path resolver

`infer_path_from_natural_language` (tools.py lines 163-196).  The OS
environment it consults — `USERPROFILE` / `os.path.expanduser`,
`os.getlogin()` and `os.path.abspath(os.sep)` — is a parameter `Env`. -/

structure Env where
  /-- `os.environ.get("USERPROFILE") or os.path.expanduser("~")`. -/
  userprofile : String
  /-- `os.getlogin()`. -/
  login : String
  /-- `os.path.abspath(os.sep)`. -/
  rootAbs : String
  deriving DecidableEq, Repr

/-- Does `s` end with the character `c`? -/
def strEndsWithChar (s : String) (c : Char) : Bool :=
  match s.data.getLast? with
  | some d => d == c
  | none => false

/-- `os.path.join(a, b)` on Windows for a relative `b`: insert a backslash
unless `a` is empty or already ends in a separator. -/
def pathJoin (a b : String) : String :=
  if a.data.isEmpty then b
  else if strEndsWithChar a '\\' || strEndsWithChar a '/' then a ++ b
  else a ++ "\\" ++ b

/-- The `mappings` dict literal (tools.py lines 167-186), in insertion
order, which is the iteration order of a Python dict. -/
def mappings (env : Env) : List (String × String) :=
  [ ("my documents", pathJoin env.userprofile "Documents"),
    ("documents folder", pathJoin env.userprofile "Documents"),
    ("downloads folder", pathJoin env.userprofile "Downloads"),
    ("my downloads", pathJoin env.userprofile "Downloads"),
    ("desktop", pathJoin env.userprofile "Desktop"),
    ("pictures folder", pathJoin env.userprofile "Pictures"),
    ("music folder", pathJoin env.userprofile "Music"),
    ("videos folder", pathJoin env.userprofile "Videos"),
    ("c drive", "C:\\"),
    ("d drive", "D:\\"),
    ("root", env.rootAbs),
    ("home", env.userprofile),
    ("user folder", env.userprofile),
    ("documents", pathJoin env.userprofile "Documents"),
    ("downloads", pathJoin env.userprofile "Downloads"),
    ("pictures", pathJoin env.userprofile "Pictures"),
    ("music", pathJoin env.userprofile "Music"),
    ("videos", pathJoin env.userprofile "Videos") ]

/-- The combined path `os.path.join("C:\\", "Users", os.getlogin(), "Documents")`
of the compound branch (tools.py line 192), and its `D:` sibling. -/
def compoundPath (drive : String) (env : Env) : String :=
  pathJoin (pathJoin (pathJoin drive "Users") env.login) "Documents"

/-- `infer_path_from_natural_language(nl_path)` (tools.py lines 163-196):
lower-case and strip the input, return the value of the first table key
occurring in it, otherwise try the two compound cases, otherwise return
the processed input as-is. -/
def infer_path_from_natural_language (nlPath : String) (env : Env) : String :=
  let s := pyStrip (strLower nlPath)
  match (mappings env).find? (fun kv => occursIn kv.1 s) with
  | some kv => kv.2
  | none =>
    if occursIn "c drive" s && occursIn "documents" s then compoundPath "C:\\" env
    else if occursIn "d drive" s && occursIn "documents" s then compoundPath "D:\\" env
    else s

/-! ### File search and guarded read

`os.walk` is Python-stdlib, outside this repository; its output stream is
the embedding's input: a list of entries in walk order.  Each entry carries
the directory's path, its file names, and the depth that `find_file`
computes from it as `os.path.relpath(root, search_dir).count(os.sep)`. -/

structure WalkEntry where
  /-- The `root` component yielded by `os.walk`. -/
  root : String
  /-- The `files` component yielded by `os.walk`. -/
  files : List String
  /-- `os.path.relpath(root, search_dir).count(os.sep)`. -/
  depth : Nat
  deriving DecidableEq, Repr

/-- The loop body of `find_file` (tools.py lines 219-227): skip entries
deeper than `maxDepth`, return on the first entry listing `filename`. -/
def findInWalk (filename : String) (maxDepth : Int) :
    List WalkEntry → Option (String × String)
  | [] => none
  | e :: rest =>
    if (e.depth : Int) > maxDepth then findInWalk filename maxDepth rest
    else if e.files.contains filename then some (pathJoin e.root filename, e.root)
    else findInWalk filename maxDepth rest

/-- `find_file(filename, search_dir, max_depth)` (tools.py lines 216-227).
`walk` is the stream `os.walk(search_dir)` produces under the (absolute)
search directory; `(None, None)` is modelled by `none`. -/
def find_file (filename : String) (walk : List WalkEntry) (maxDepth : Int) :
    Option (String × String) :=
  findInWalk filename maxDepth walk

/-- `find_and_read_file(filename, search_dir, max_depth, confirm)`
(tools.py lines 229-251).  `walk` is the `os.walk` stream under the
resolved directory, `contents` maps a file path to its text (the successful
`open`/`read` path), and `isText` is the `is_text_file` byte heuristic,
abstracted since it inspects raw bytes. -/
def find_and_read_file (filename searchDir : String) (maxDepth : Int)
    (confirm : Bool) (env : Env) (walk : List WalkEntry)
    (contents : String → String) (isText : String → Bool) : String :=
  let resolvedDir := infer_path_from_natural_language searchDir env
  match find_file filename walk maxDepth with
  | none =>
      "File \x27" ++ filename ++ "\x27 not found in \x27" ++ resolvedDir ++
        "\x27 (searched up to depth " ++ toString maxDepth ++ ")."
  | some pr =>
    if !confirm then
      "File found: " ++ pr.1 ++
        "\n\nDo you want to read this file? If yes, call this tool again with \x27confirm=True\x27."
    else if !isText pr.1 then
      "File \x27" ++ pr.1 ++
        "\x27 appears to be binary or not a text file. Reading as text is not supported."
    else
      let content := contents pr.1
      if content.length > 4000 then
        "File \x27" ++ pr.1 ++
          "\x27 is too large to display in full. Showing first 4000 characters:\n\n" ++
          String.mk (content.data.take 4000)
      else "File found: " ++ pr.1 ++ "\n\n" ++ content

/-! ### Calendar tool control flow

`get_calendar_events` (tools.py lines 434-491).  The OAuth section —
`pickle.load`, `creds.refresh`, `InstalledAppFlow.from_client_secrets_file`
— runs BEFORE the `try` block; a failure there is an uncaught exception,
modelled as `Except.error`.  The Google-API calls inside the `try` block
are abstracted by `fetchResult`; failures there are caught and rendered. -/

structure Creds where
  valid : Bool
  expired : Bool
  refresh_token : Bool
  deriving DecidableEq, Repr

structure CalEnv where
  /-- Contents of `token.pickle` if that file exists. -/
  tokenPickle : Option Creds
  /-- Does the hard-coded `client_secret_*.json` file exist?  When it does
  not, `InstalledAppFlow.from_client_secrets_file` raises. -/
  clientSecretExists : Bool
  /-- Outcome of the `service.events().list(...)` call inside the `try`
  block: the fetched `(start, summary)` pairs, or the exception message. -/
  fetchResult : Except String (List (String × String))
  deriving Repr

/-- The `try` block of `get_calendar_events` (tools.py lines 465-491):
every failure is caught and rendered as a string. -/
def calendarTryBlock (days : Int) (env : CalEnv) : String :=
  match env.fetchResult with
  | .error e => "Error fetching calendar events: " ++ e
  | .ok events =>
    if events.isEmpty then
      "No upcoming events found in the next " ++ toString days ++ " day(s)."
    else
      String.intercalate "\n"
        (("Here are your events for the next " ++ toString days ++ " day(s):") ::
          events.map (fun ev => ev.1 ++ ": " ++ ev.2))

/-- The credential-acquisition section of `get_calendar_events`
(tools.py lines 451-463), which runs outside the `try` block, so its
failures propagate: with no usable creds, no refresh path and no client
secret file, `InstalledAppFlow.from_client_secrets_file` raises
`FileNotFoundError`. -/
def acquireCreds (env : CalEnv) : Except String Unit :=
  match env.tokenPickle with
  | some c =>
    if c.valid then .ok ()
    else if c.expired && c.refresh_token then .ok ()
    else if env.clientSecretExists then .ok ()
    else .error "FileNotFoundError: client_secret file not found"
  | none =>
    if env.clientSecretExists then .ok ()
    else .error "FileNotFoundError: client_secret file not found"

/-- `get_calendar_events(days)` (tools.py lines 434-491): `Except.error`
means an exception escapes to the agent runtime. -/
def get_calendar_events (days : Option Int) (env : CalEnv) : Except String String :=
  match days with
  | none => .ok "How many days ahead would you like to check your calendar events for?"
  | some d =>
    match acquireCreds env with
    | .error e => .error e
    | .ok _ => .ok (calendarTryBlock d env)

/-- A concrete OS environment used to instantiate universally quantified
theorems at witness points. -/
def sampleEnv : Env :=
  { userprofile := "C:\\Users\\yogi", login := "yogi", rootAbs := "C:\\" }

/-! ## Theorems -/

/-- Folding `add_task` over a well-formed store appends in order. -/
theorem addTasksSeq_valid (ts : List String) :
    ∀ l, addTasksSeq ts (StoreFile.valid l) = StoreFile.valid (l ++ ts) := by
  induction ts with
  | nil => intro l; simp [addTasksSeq]
  | cons t ts ih =>
      intro l
      have h1 : addTasksSeq (t :: ts) (StoreFile.valid l)
          = addTasksSeq ts (StoreFile.valid (l ++ [t])) := rfl
      rw [h1, ih (l ++ [t])]
      simp

/-- C1: `list_tasks` immediately after `clear_tasks` returns
"No tasks in the list."; `list_tasks` after adding `t1 .. tN` to an empty
store renders the N tasks in insertion order, the i-th line being the
1-indexed `"i. ti"`, joined by newlines. -/
theorem claim_C1 (f f0 : StoreFile) (t : String) (ts : List String)
    (h : f0 = StoreFile.missing ∨ f0 = StoreFile.valid []) :
    (list_tasks (clear_tasks f).2).1 = "No tasks in the list." ∧
    (list_tasks (addTasksSeq (t :: ts) f0)).1 =
      String.intercalate "\n" ((t :: ts).enum.map renderItem) := by
  constructor
  · rfl
  · have hval : addTasksSeq (t :: ts) f0 = StoreFile.valid (t :: ts) := by
      rcases h with h | h <;> subst h
      · have h2 : addTasksSeq (t :: ts) StoreFile.missing
            = addTasksSeq ts (StoreFile.valid [t]) := rfl
        rw [h2, addTasksSeq_valid]
        rfl
      · rw [addTasksSeq_valid (t :: ts) []]
        rfl
    rw [hval]
    simp [list_tasks, load_tasks]

/-- Witness for C1 at the spec's own example. -/
theorem claim_C1_witness :
    (list_tasks (clear_tasks StoreFile.corrupt).2).1 = "No tasks in the list." ∧
    (list_tasks (addTasksSeq ["buy milk"] StoreFile.missing)).1 =
      String.intercalate "\n" ((["buy milk"] : List String).enum.map renderItem) :=
  claim_C1 StoreFile.corrupt StoreFile.missing "buy milk" [] (Or.inl rfl)

/-- C2: `write_note` on an empty note store creates exactly one entry equal
to the input; on a non-empty store it keeps the entry count and replaces the
last entry by the old one (right-trimmed), a newline, and the input
(left-trimmed). -/
theorem claim_C2 (note : String) (f : StoreFile) :
    ((load_notes f).1 = [] → (write_note note f).2 = StoreFile.valid [note]) ∧
    (∀ l x, (load_notes f).1 = l ++ [x] →
      (write_note note f).2 =
        StoreFile.valid (l ++ [pyRstrip x ++ "\n" ++ pyLstrip note]) ∧
      (l ++ [pyRstrip x ++ "\n" ++ pyLstrip note]).length = (l ++ [x]).length) := by
  constructor
  · intro hempty
    simp [write_note, save_notes, hempty]
  · intro l x hcons
    constructor
    · simp [write_note, save_notes, hcons]
    · simp

/-- Witness for C2: appending "b" to a store whose last note is "a  ". -/
theorem claim_C2_witness :
    (write_note "b" (StoreFile.valid ["a  "])).2 =
      StoreFile.valid ([] ++ [pyRstrip "a  " ++ "\n" ++ pyLstrip "b"]) ∧
    (([] : List String) ++ [pyRstrip "a  " ++ "\n" ++ pyLstrip "b"]).length =
      (([] : List String) ++ ["a  "]).length :=
  (claim_C2 "b" (StoreFile.valid ["a  "])).2 [] "a  " rfl

/-- C3: loading a corrupted store file returns the empty collection and
overwrites the file with the empty array, for both stores. -/
theorem claim_C3 :
    load_tasks StoreFile.corrupt = ([], StoreFile.valid []) ∧
    load_notes StoreFile.corrupt = ([], StoreFile.valid []) :=
  ⟨rfl, rfl⟩

/-- C10: a load that fails for a reason other than a JSON parse error
returns the empty collection and leaves the file untouched; more generally,
the only file state a load ever writes to is the corrupt one. -/
theorem claim_C10 (f : StoreFile) (h : f ≠ StoreFile.corrupt) :
    load_tasks StoreFile.unreadable = ([], StoreFile.unreadable) ∧
    load_notes StoreFile.unreadable = ([], StoreFile.unreadable) ∧
    (load_tasks f).2 = f ∧ (load_notes f).2 = f := by
  refine ⟨rfl, rfl, ?_, ?_⟩ <;> cases f <;> simp_all [load_tasks, load_notes]

/-- Witness for C10 at the unreadable store state. -/
theorem claim_C10_witness :
    load_tasks StoreFile.unreadable = ([], StoreFile.unreadable) ∧
    load_notes StoreFile.unreadable = ([], StoreFile.unreadable) ∧
    (load_tasks StoreFile.unreadable).2 = StoreFile.unreadable ∧
    (load_notes StoreFile.unreadable).2 = StoreFile.unreadable :=
  claim_C10 StoreFile.unreadable (by decide)

/-- Unfolding of `generate_password` on an accepted length. -/
theorem generate_password_of_ge (length : Int) (idx : Nat → Nat) (h : ¬ length < 6) :
    generate_password length idx =
      ⟨(List.range length.toNat).map
        fun i => pwChars.data.getD (idx i % pwChars.data.length) 'a'⟩ := by
  unfold generate_password
  rw [if_neg h]

/-- C5: `generate_password` rejects every length below 6 with the fixed
message, accepts length 6, and at length 20 produces exactly 20 characters,
each drawn from letters + digits + punctuation, for every random stream. -/
theorem claim_C5 (length : Int) (idx : Nat → Nat) (h : length < 6) :
    generate_password length idx = "Password must be at least 6 characters long." ∧
    (generate_password 20 idx).length = 20 ∧
    (∀ c ∈ (generate_password 20 idx).data, c ∈ pwChars.data) ∧
    (generate_password 6 idx).length = 6 := by
  have hpos : 0 < pwChars.data.length := by decide
  refine ⟨?_, ?_, ?_, ?_⟩
  · simp [generate_password, h]
  · rw [generate_password_of_ge 20 idx (by norm_num)]
    show ((List.range (Int.toNat 20)).map _).length = 20
    rw [List.length_map, List.length_range]
    rfl
  · intro c hc
    rw [generate_password_of_ge 20 idx (by norm_num)] at hc
    simp only [List.mem_map, List.mem_range] at hc
    obtain ⟨i, _, rfl⟩ := hc
    have hlt : idx i % pwChars.data.length < pwChars.data.length :=
      Nat.mod_lt _ hpos
    rw [List.getD_eq_getElem _ _ hlt]
    exact List.getElem_mem hlt
  · rw [generate_password_of_ge 6 idx (by norm_num)]
    show ((List.range (Int.toNat 6)).map _).length = 6
    rw [List.length_map, List.length_range]
    rfl

/-- Witness for C5 at length 5 and the constant random stream. -/
theorem claim_C5_witness :
    generate_password 5 (fun _ => 0) = "Password must be at least 6 characters long." ∧
    (generate_password 20 (fun _ => 0)).length = 20 ∧
    (∀ c ∈ (generate_password 20 (fun _ => 0)).data, c ∈ pwChars.data) ∧
    (generate_password 6 (fun _ => 0)).length = 6 :=
  claim_C5 5 (fun _ => 0) (by decide)

/-- The first `some` answer of `List.find?` splits the list at the first
element satisfying the predicate. -/
theorem find?_eq_some_decomp {α : Type} (p : α → Bool) :
    ∀ (l : List α) (a : α), l.find? p = some a →
      ∃ l1 l2, l = l1 ++ a :: l2 ∧ (∀ x ∈ l1, p x = false) ∧ p a = true := by
  intro l
  induction l with
  | nil => intro a h; simp [List.find?] at h
  | cons b bs ih =>
      intro a h
      by_cases hb : p b = true
      · rw [List.find?_cons_of_pos _ hb] at h
        cases h
        exact ⟨[], bs, rfl, by simp, hb⟩
      · rw [List.find?_cons_of_neg _ (by simpa using hb)] at h
        obtain ⟨l1, l2, hdec, hl1, hpa⟩ := ih a h
        refine ⟨b :: l1, l2, by rw [hdec, List.cons_append], ?_, hpa⟩
        intro x hx
        rcases List.mem_cons.mp hx with rfl | hx
        · simpa using hb
        · exact hl1 x hx

/-- A `some` answer of the `find_file` loop is the first walk entry within
the depth bound that lists the file. -/
theorem findInWalk_some (filename : String) (maxDepth : Int) :
    ∀ (walk : List WalkEntry) (p r : String),
      findInWalk filename maxDepth walk = some (p, r) →
      ∃ l1 e l2, walk = l1 ++ e :: l2 ∧
        (∀ e2 ∈ l1, (e2.depth : Int) ≤ maxDepth → e2.files.contains filename = false) ∧
        (e.depth : Int) ≤ maxDepth ∧ e.files.contains filename = true ∧
        r = e.root ∧ p = pathJoin e.root filename := by
  intro walk
  induction walk with
  | nil => intro p r h; simp [findInWalk] at h
  | cons e rest ih =>
      intro p r h
      simp only [findInWalk] at h
      by_cases hd : (e.depth : Int) > maxDepth
      · rw [if_pos hd] at h
        obtain ⟨l1, e1, l2, hw, hl1, hdep, hcont, hr, hp⟩ := ih p r h
        refine ⟨e :: l1, e1, l2, by rw [hw, List.cons_append], ?_, hdep, hcont, hr, hp⟩
        intro e2 hm
        rcases List.mem_cons.mp hm with rfl | hm
        · intro hle; exact absurd hle (not_le.mpr hd)
        · exact hl1 e2 hm
      · rw [if_neg hd] at h
        by_cases hc : e.files.contains filename = true
        · rw [if_pos hc] at h
          have hp := congrArg Prod.fst (Option.some.inj h)
          have hr := congrArg Prod.snd (Option.some.inj h)
          exact ⟨[], e, rest, rfl, by simp, not_lt.mp hd, hc, hr.symm, hp.symm⟩
        · rw [if_neg hc] at h
          obtain ⟨l1, e1, l2, hw, hl1, hdep, hcont, hr, hp⟩ := ih p r h
          refine ⟨e :: l1, e1, l2, by rw [hw, List.cons_append], ?_, hdep, hcont, hr, hp⟩
          intro e2 hm
          rcases List.mem_cons.mp hm with rfl | hm
          · intro _; simpa using hc
          · exact hl1 e2 hm

/-- The `find_file` loop answers `none` exactly when no walk entry within
the depth bound lists the file. -/
theorem findInWalk_none (filename : String) (maxDepth : Int) :
    ∀ (walk : List WalkEntry),
      findInWalk filename maxDepth walk = none ↔
        ∀ e ∈ walk, (e.depth : Int) ≤ maxDepth → e.files.contains filename = false := by
  intro walk
  induction walk with
  | nil => simp [findInWalk]
  | cons e rest ih =>
      simp only [findInWalk]
      by_cases hd : (e.depth : Int) > maxDepth
      · rw [if_pos hd, ih]
        constructor
        · intro hall e2 hm
          rcases List.mem_cons.mp hm with rfl | hm
          · intro hle; exact absurd hle (not_le.mpr hd)
          · exact hall e2 hm
        · intro hall e2 hm
          exact hall e2 (List.mem_cons_of_mem _ hm)
      · rw [if_neg hd]
        by_cases hc : e.files.contains filename = true
        · rw [if_pos hc]
          constructor
          · intro h; exact absurd h (by simp)
          · intro hall
            have hcf := hall e (List.mem_cons_self e rest) (not_lt.mp hd)
            rw [hc] at hcf
            exact absurd hcf (by decide)
        · rw [if_neg hc, ih]
          constructor
          · intro hall e2 hm
            rcases List.mem_cons.mp hm with rfl | hm
            · intro _; simpa using hc
            · exact hall e2 hm
          · intro hall e2 hm
            exact hall e2 (List.mem_cons_of_mem _ hm)

/-- C9: `find_file` returns the first walk entry within the depth bound
whose directory lists the file, as the joined file path with its containing
directory, whose depth (separator count relative to the root) does not
exceed `max_depth`; it returns the `(None, None)` signal exactly when no
entry within the bound lists the file. -/
theorem claim_C9 (filename : String) (walk : List WalkEntry) (maxDepth : Int) :
    (∀ p r, find_file filename walk maxDepth = some (p, r) →
      ∃ l1 e l2, walk = l1 ++ e :: l2 ∧
        (∀ e2 ∈ l1, (e2.depth : Int) ≤ maxDepth → e2.files.contains filename = false) ∧
        (e.depth : Int) ≤ maxDepth ∧ e.files.contains filename = true ∧
        r = e.root ∧ p = pathJoin e.root filename) ∧
    (find_file filename walk maxDepth = none ↔
      ∀ e ∈ walk, (e.depth : Int) ≤ maxDepth → e.files.contains filename = false) :=
  ⟨fun p r h => findInWalk_some filename maxDepth walk p r h,
    findInWalk_none filename maxDepth walk⟩

/-- Witness for C9 on a two-entry walk whose match sits in the second entry. -/
theorem claim_C9_witness :
    ∃ l1 e l2,
      ([⟨"C:\\r", ["b.txt"], 0⟩, ⟨"C:\\r\\s", ["a.txt"], 0⟩] : List WalkEntry) =
        l1 ++ e :: l2 ∧
      (∀ e2 ∈ l1, (e2.depth : Int) ≤ 5 → e2.files.contains "a.txt" = false) ∧
      (e.depth : Int) ≤ 5 ∧ e.files.contains "a.txt" = true ∧
      "C:\\r\\s" = e.root ∧ "C:\\r\\s\\a.txt" = pathJoin e.root "a.txt" :=
  (claim_C9 "a.txt" [⟨"C:\\r", ["b.txt"], 0⟩, ⟨"C:\\r\\s", ["a.txt"], 0⟩] 5).1
    "C:\\r\\s\\a.txt" "C:\\r\\s" (by decide)

/-- C4: on a file the search locates, the unconfirmed call returns the fixed
confirmation prompt naming the found path — a string that is identical for
every contents map and text heuristic, so no file content can leak — and the
confirmed call on a text file returns the content, truncated to its first
4000 characters with the truncation note exactly when the content is longer
than 4000 characters. -/
theorem claim_C4 (filename searchDir : String) (maxDepth : Int) (env : Env)
    (walk : List WalkEntry) (contents : String → String) (isText : String → Bool)
    (p r : String) (hfind : find_file filename walk maxDepth = some (p, r)) :
    (find_and_read_file filename searchDir maxDepth false env walk contents isText =
      "File found: " ++ p ++
        "\n\nDo you want to read this file? If yes, call this tool again with \x27confirm=True\x27.") ∧
    (∀ c1 c2 : String → String, ∀ i1 i2 : String → Bool,
      find_and_read_file filename searchDir maxDepth false env walk c1 i1 =
        find_and_read_file filename searchDir maxDepth false env walk c2 i2) ∧
    (isText p = true →
      find_and_read_file filename searchDir maxDepth true env walk contents isText =
        if (contents p).length > 4000 then
          "File \x27" ++ p ++
            "\x27 is too large to display in full. Showing first 4000 characters:\n\n" ++
            String.mk ((contents p).data.take 4000)
        else "File found: " ++ p ++ "\n\n" ++ contents p) := by
  refine ⟨?_, ?_, ?_⟩
  · simp [find_and_read_file, hfind]
  · intro c1 c2 i1 i2
    simp [find_and_read_file, hfind]
  · intro ht
    simp [find_and_read_file, hfind, ht]

/-- Witness for C4 on a one-entry walk holding `a.txt` with content "SECRET". -/
theorem claim_C4_witness :
    (find_and_read_file "a.txt" "x" 5 false sampleEnv [⟨"x", ["a.txt"], 0⟩]
        (fun _ => "SECRET") (fun _ => true) =
      "File found: " ++ "x\\a.txt" ++
        "\n\nDo you want to read this file? If yes, call this tool again with \x27confirm=True\x27.") ∧
    (∀ c1 c2 : String → String, ∀ i1 i2 : String → Bool,
      find_and_read_file "a.txt" "x" 5 false sampleEnv [⟨"x", ["a.txt"], 0⟩] c1 i1 =
        find_and_read_file "a.txt" "x" 5 false sampleEnv [⟨"x", ["a.txt"], 0⟩] c2 i2) ∧
    ((fun (_ : String) => true) "x\\a.txt" = true →
      find_and_read_file "a.txt" "x" 5 true sampleEnv [⟨"x", ["a.txt"], 0⟩]
          (fun _ => "SECRET") (fun _ => true) =
        if ("SECRET" : String).length > 4000 then
          "File \x27" ++ "x\\a.txt" ++
            "\x27 is too large to display in full. Showing first 4000 characters:\n\n" ++
            String.mk (("SECRET" : String).data.take 4000)
        else "File found: " ++ "x\\a.txt" ++ "\n\n" ++ "SECRET") :=
  claim_C4 "a.txt" "x" 5 sampleEnv [⟨"x", ["a.txt"], 0⟩]
    (fun _ => "SECRET") (fun _ => true) "x\\a.txt" "x" (by decide)

/-- Counterexample to C7 as stated: the resolver does not return an
unmatched input unchanged — it lower-cases (and strips) it first. -/
theorem claim_C7_counterexample :
    infer_path_from_natural_language "MyFolder" sampleEnv = "myfolder" ∧
    "myfolder" ≠ "MyFolder" := by
  constructor
  · decide
  · decide

/-- C7 (amended): an input matching no table key passes through as a
literal path only after lower-casing and stripping surrounding whitespace
(the compound branches also cannot apply then); when several keys occur in
the input, the first matching key in table order determines the result. -/
theorem claim_C7 (nlPath s : String) (env : Env)
    (hs : s = pyStrip (strLower nlPath)) :
    ((mappings env).find? (fun kv => occursIn kv.1 s) = none →
      infer_path_from_natural_language nlPath env = s) ∧
    (∀ kv, (mappings env).find? (fun kv2 => occursIn kv2.1 s) = some kv →
      ∃ l1 l2, mappings env = l1 ++ kv :: l2 ∧
        (∀ kv2 ∈ l1, occursIn kv2.1 s = false) ∧ occursIn kv.1 s = true ∧
        infer_path_from_natural_language nlPath env = kv.2) := by
  subst hs
  constructor
  · intro hnone
    have hall := List.find?_eq_none.mp hnone
    have hcd : occursIn "c drive" (pyStrip (strLower nlPath)) = false := by
      have := hall ("c drive", "C:\\") (by simp [mappings])
      simpa using this
    have hdd : occursIn "d drive" (pyStrip (strLower nlPath)) = false := by
      have := hall ("d drive", "D:\\") (by simp [mappings])
      simpa using this
    simp [infer_path_from_natural_language, hnone, hcd, hdd]
  · intro kv hkv
    obtain ⟨l1, l2, hdec, hl1, hp⟩ := find?_eq_some_decomp _ _ _ hkv
    exact ⟨l1, l2, hdec, hl1, hp,
      by simp [infer_path_from_natural_language, hkv]⟩

/-- Witness for C7 at the unmatched input "MyFolder". -/
theorem claim_C7_witness :
    (((mappings sampleEnv).find? (fun kv => occursIn kv.1 "myfolder") = none →
      infer_path_from_natural_language "MyFolder" sampleEnv = "myfolder")) ∧
    (∀ kv, (mappings sampleEnv).find? (fun kv2 => occursIn kv2.1 "myfolder") = some kv →
      ∃ l1 l2, mappings sampleEnv = l1 ++ kv :: l2 ∧
        (∀ kv2 ∈ l1, occursIn kv2.1 "myfolder" = false) ∧
        occursIn kv.1 "myfolder" = true ∧
        infer_path_from_natural_language "MyFolder" sampleEnv = kv.2) :=
  claim_C7 "MyFolder" "myfolder" sampleEnv (by decide)

/-- Counterexample to C8 as stated: an input containing both "c drive" and
"documents" is resolved by the single-phrase "c drive" table entry to
`C:\`, not to the hard-coded combined Users/<login>/Documents path. -/
theorem claim_C8_counterexample :
    infer_path_from_natural_language "c drive documents" sampleEnv = "C:\\" ∧
    "C:\\" ≠ compoundPath "C:\\" sampleEnv := by
  constructor
  · decide
  · decide

/-- C8 (amended): the compound branches are unreachable — whenever the
processed input contains "c drive" (or "d drive"), some table key already
matches inside the loop, so the resolver returns that first matching key's
value and the combined-path code never executes. -/
theorem claim_C8 (nlPath s : String) (env : Env)
    (hs : s = pyStrip (strLower nlPath))
    (hdrive : occursIn "c drive" s = true ∨ occursIn "d drive" s = true) :
    ∃ kv, (mappings env).find? (fun kv2 => occursIn kv2.1 s) = some kv ∧
      infer_path_from_natural_language nlPath env = kv.2 := by
  subst hs
  have hsome :
      ((mappings env).find?
        (fun kv2 => occursIn kv2.1 (pyStrip (strLower nlPath)))).isSome := by
    rw [List.find?_isSome]
    rcases hdrive with h | h
    · exact ⟨("c drive", "C:\\"), by simp [mappings], h⟩
    · exact ⟨("d drive", "D:\\"), by simp [mappings], h⟩
  obtain ⟨kv, hkv⟩ := Option.isSome_iff_exists.mp hsome
  exact ⟨kv, hkv, by simp [infer_path_from_natural_language, hkv]⟩

/-- Witness for C8 at the input "c drive documents". -/
theorem claim_C8_witness :
    ∃ kv, (mappings sampleEnv).find?
        (fun kv2 => occursIn kv2.1 "c drive documents") = some kv ∧
      infer_path_from_natural_language "c drive documents" sampleEnv = kv.2 :=
  claim_C8 "c drive documents" "c drive documents" sampleEnv (by decide)
    (Or.inl (by decide))

/-- Counterexample to C6 as stated: with no cached token and the hard-coded
client-secret file absent, `get_calendar_events` raises a
`FileNotFoundError` out of its credential-acquisition section, which runs
before the `try` block — an exception propagates to the runtime. -/
theorem claim_C6_counterexample :
    get_calendar_events (some 1)
        { tokenPickle := none, clientSecretExists := false, fetchResult := .ok [] } =
      .error "FileNotFoundError: client_secret file not found" :=
  rfl

/-- C6 (amended): the calendar tools violate the uniform catch-at-boundary
policy: credential acquisition runs outside the `try` block, and with no
token and no client-secret file the tool propagates an exception; only
failures inside the `try` block (the API fetch) are converted to
descriptive strings. -/
theorem claim_C6 (d : Int) (env : CalEnv) (c : Creds) (emsg : String)
    (htoken : env.tokenPickle = none) (hsecret : env.clientSecretExists = false)
    (hc : c.valid = true) :
    get_calendar_events (some d) env =
      .error "FileNotFoundError: client_secret file not found" ∧
    (∀ env2 : CalEnv, env2.tokenPickle = some c →
      ∃ s, get_calendar_events (some d) env2 = .ok s) ∧
    (∀ env2 : CalEnv, env2.tokenPickle = some c → env2.fetchResult = .error emsg →
      get_calendar_events (some d) env2 =
        .ok ("Error fetching calendar events: " ++ emsg)) := by
  refine ⟨?_, ?_, ?_⟩
  · simp [get_calendar_events, acquireCreds, htoken, hsecret]
  · intro env2 ht2
    exact ⟨calendarTryBlock d env2,
      by simp [get_calendar_events, acquireCreds, ht2, hc]⟩
  · intro env2 ht2 hf2
    simp [get_calendar_events, acquireCreds, ht2, hc, calendarTryBlock, hf2]

/-- Witness for C6 (amended) at a concrete environment and credentials. -/
theorem claim_C6_witness :
    get_calendar_events (some 1)
        { tokenPickle := none, clientSecretExists := false, fetchResult := .ok [] } =
      .error "FileNotFoundError: client_secret file not found" ∧
    (∀ env2 : CalEnv, env2.tokenPickle = some ⟨true, false, false⟩ →
      ∃ s, get_calendar_events (some 1) env2 = .ok s) ∧
    (∀ env2 : CalEnv, env2.tokenPickle = some ⟨true, false, false⟩ →
      env2.fetchResult = .error "boom" →
      get_calendar_events (some 1) env2 =
        .ok ("Error fetching calendar events: " ++ "boom")) :=
  claim_C6 1 { tokenPickle := none, clientSecretExists := false, fetchResult := .ok [] }
    ⟨true, false, false⟩ "boom" rfl rfl rfl

end Yogi
